import Mathlib

/-!
Verification of the run-polling / tool-dispatch core of the
azure-ai-foundary-examples repository.

The Python source is shallowly embedded: the external project client is
modelled by a scripted list of run snapshots (the successive results of
runs.get), side effects (sleeping, invoking the tool-call handler,
submitting tool outputs) are recorded in an explicit event trace, and
raised exceptions become explicit result constructors.
-/

/-- A tool-call function payload: the function name and the raw JSON
argument string, mirroring call.function in the SDK response objects.
Attribute access with a default (getattr with an empty-string fallback)
is modelled by plain string fields. -/
structure ToolFunction where
  name : String
  arguments : String
deriving Repr, DecidableEq

/-- A pending tool call from a run snapshot: id, call type, and the
optional function payload (None in Python becomes Option.none). -/
structure ToolCall where
  id : String
  type : String
  function : Option ToolFunction
deriving Repr, DecidableEq

/-- A tool output dict as built by the dispatchers:
a tool_call_id / output pair. -/
structure ToolOutput where
  tool_call_id : String
  output : String
deriving Repr, DecidableEq

/-- A run snapshot as returned by the project client. The field
tool_calls models the chain
run.required_action.submit_tool_outputs.tool_calls, which the source
reads through a getattr chain defaulting to an empty list. -/
structure RunSnapshot where
  id : String
  status : String
  tool_calls : List ToolCall := []
deriving Repr, DecidableEq

/-- utils/agent_runtime.py line 12: the terminal statuses. -/
def TerminalStatuses : List String := ["completed", "failed", "cancelled", "expired"]

/-- utils/agent_runtime.py line 13: the polling statuses. -/
def PollingStatuses : List String := ["queued", "in_progress"]

/-- The type of the handle_tool_calls callback. The project-client handle
argument is opaque and unused by the loop logic, so it is dropped. -/
abbrev ToolCallHandler := List ToolCall → List ToolOutput

/-- One observable side effect of a polling loop iteration. -/
inductive PollEvent where
  | fetch (run : RunSnapshot)
  | sleep (seconds : ℚ)
  | handlerInvoke (calls : List ToolCall)
  | submit (outputs : List ToolOutput)
deriving Repr, DecidableEq

/-- How an invocation of the polling loop ends. scriptExhausted is a
modelling artifact: the scripted client ran out of responses while the
Python loop would still be iterating. -/
inductive PollResult where
  | returned (run : RunSnapshot)
  | raised (msg : String)
  | scriptExhausted
deriving Repr, DecidableEq

/-- Embedding of _poll_run_with_tools (utils/agent_runtime.py lines
132-168). Each loop iteration fetches the next snapshot from the script;
terminal statuses return the snapshot, requires_action dispatches to the
handler and submits (raising when the handler returns no outputs), and
every other status sleeps for the configured poll interval before
re-polling. Sleep durations are modelled as rationals. -/
def _poll_run_with_tools (handle_tool_calls : ToolCallHandler) (poll_interval : ℚ) :
    List RunSnapshot → PollResult × List PollEvent
  | [] => (.scriptExhausted, [])
  | run :: rest =>
    if run.status ∈ TerminalStatuses then
      (.returned run, [.fetch run])
    else if run.status = "requires_action" then
      let tool_calls := run.tool_calls
      let outputs := handle_tool_calls tool_calls
      if outputs = [] then
        (.raised "Run requires tool outputs but handler returned none.",
         [.fetch run, .handlerInvoke tool_calls])
      else
        let next := _poll_run_with_tools handle_tool_calls poll_interval rest
        (next.1, .fetch run :: .handlerInvoke tool_calls :: .submit outputs :: next.2)
    else if run.status ∈ PollingStatuses then
      let next := _poll_run_with_tools handle_tool_calls poll_interval rest
      (next.1, .fetch run :: .sleep poll_interval :: next.2)
    else
      let next := _poll_run_with_tools handle_tool_calls poll_interval rest
      (next.1, .fetch run :: .sleep poll_interval :: next.2)

/-- Helper: a returned result always carries a terminal status. -/
theorem poll_fst_returned_terminal (h : ToolCallHandler) (i : ℚ) :
    ∀ (script : List RunSnapshot) (run : RunSnapshot),
      (_poll_run_with_tools h i script).1 = PollResult.returned run →
        run.status ∈ TerminalStatuses := by
  intro script
  induction script with
  | nil =>
    intro run hEq
    simp [_poll_run_with_tools] at hEq
  | cons head tail ih =>
    intro run hEq
    simp only [_poll_run_with_tools] at hEq
    split at hEq
    · rename_i hterm
      simp only [Prod.fst] at hEq
      cases hEq
      exact hterm
    · split at hEq
      · split at hEq
        · simp at hEq
        · exact ih run hEq
      · split at hEq
        · exact ih run hEq
        · exact ih run hEq

/-- Helper: a snapshot whose status is neither terminal nor
requires_action contributes exactly one fetch and one sleep of the
configured interval, and defers the outcome to the rest of the script. -/
theorem poll_unknown_status_sleeps (h : ToolCallHandler) (i : ℚ) (snap : RunSnapshot)
    (rest : List RunSnapshot) (hterm : snap.status ∉ TerminalStatuses)
    (hra : snap.status ≠ "requires_action") :
    _poll_run_with_tools h i (snap :: rest) =
      ((_poll_run_with_tools h i rest).1,
        PollEvent.fetch snap :: PollEvent.sleep i :: (_poll_run_with_tools h i rest).2) := by
  rw [_poll_run_with_tools]
  rw [if_neg hterm, if_neg hra]
  split <;> rfl

/-- C1: on the scripted status sequence
[requires_action, in_progress, completed] the poll loop invokes the
handler and submits its outputs exactly once (for the requires_action
snapshot, with the next fetch following the submission directly, no
sleep in between), sleeps exactly once (for the in_progress snapshot),
and returns the completed snapshot unchanged. -/
theorem poll_loop_scripted_trace (h : ToolCallHandler) (i : ℚ)
    (s1 s2 s3 : RunSnapshot)
    (h1 : s1.status = "requires_action") (h2 : s2.status = "in_progress")
    (h3 : s3.status = "completed") (hout : h s1.tool_calls ≠ []) :
    _poll_run_with_tools h i [s1, s2, s3] =
      (PollResult.returned s3,
       [PollEvent.fetch s1, PollEvent.handlerInvoke s1.tool_calls,
        PollEvent.submit (h s1.tool_calls), PollEvent.fetch s2,
        PollEvent.sleep i, PollEvent.fetch s3]) := by
  simp [_poll_run_with_tools, TerminalStatuses, PollingStatuses, h1, h2, h3, hout]

/-- Demo handler used by closed witness statements. -/
def demoHandler : ToolCallHandler := fun _ => [{ tool_call_id := "call-1", output := "Sunny" }]

/-- Demo snapshots used by closed witness statements. -/
def demoCall : ToolCall :=
  { id := "call-1", type := "function",
    function := some { name := "get_weatherstack_weather", arguments := "" } }

def demoRA : RunSnapshot := { id := "run-1", status := "requires_action", tool_calls := [demoCall] }

def demoIP : RunSnapshot := { id := "run-1", status := "in_progress" }

def demoDone : RunSnapshot := { id := "run-1", status := "completed" }

def demoUnknown : RunSnapshot := { id := "run-1", status := "cancelling" }

/-- Witness for C1 at a concrete script. -/
theorem poll_loop_scripted_trace_witness :
    _poll_run_with_tools demoHandler 1 [demoRA, demoIP, demoDone] =
      (PollResult.returned demoDone,
       [PollEvent.fetch demoRA, PollEvent.handlerInvoke demoRA.tool_calls,
        PollEvent.submit (demoHandler demoRA.tool_calls), PollEvent.fetch demoIP,
        PollEvent.sleep 1, PollEvent.fetch demoDone]) :=
  poll_loop_scripted_trace demoHandler 1 demoRA demoIP demoDone rfl rfl rfl
    (by simp [demoHandler])

/-- C2: when the fetched snapshot has status requires_action and the
handler returns an empty output list, the loop raises the fatal
RuntimeError message and the event trace contains no submission. -/
theorem poll_loop_empty_outputs_raises (h : ToolCallHandler) (i : ℚ)
    (snap : RunSnapshot) (rest : List RunSnapshot)
    (hs : snap.status = "requires_action") (hempty : h snap.tool_calls = []) :
    _poll_run_with_tools h i (snap :: rest) =
      (PollResult.raised "Run requires tool outputs but handler returned none.",
       [PollEvent.fetch snap, PollEvent.handlerInvoke snap.tool_calls]) ∧
    ∀ outs, PollEvent.submit outs ∉ (_poll_run_with_tools h i (snap :: rest)).2 := by
  have hmain : _poll_run_with_tools h i (snap :: rest) =
      (PollResult.raised "Run requires tool outputs but handler returned none.",
       [PollEvent.fetch snap, PollEvent.handlerInvoke snap.tool_calls]) := by
    simp [_poll_run_with_tools, TerminalStatuses, hs, hempty]
  refine ⟨hmain, ?_⟩
  intro outs hmem
  rw [hmain] at hmem
  simp at hmem

/-- Witness for C2 at a concrete script. -/
theorem poll_loop_empty_outputs_raises_witness :
    _poll_run_with_tools (fun _ => []) 1 [demoRA] =
      (PollResult.raised "Run requires tool outputs but handler returned none.",
       [PollEvent.fetch demoRA, PollEvent.handlerInvoke demoRA.tool_calls]) ∧
    ∀ outs, PollEvent.submit outs ∉ (_poll_run_with_tools (fun _ => []) 1 [demoRA]).2 :=
  poll_loop_empty_outputs_raises (fun _ => []) 1 demoRA [] rfl rfl

/-- C3: the poll loop returns a snapshot only when its status is in the
terminal set, and for every fetched status that is neither terminal nor
requires_action (the known polling statuses and any unknown status
alike) the iteration neither raises nor returns: it sleeps for the
configured poll interval and defers to the next fetch. -/
theorem poll_loop_terminal_return_and_unknown_wait :
    (∀ (h : ToolCallHandler) (i : ℚ) (script : List RunSnapshot) (run : RunSnapshot),
        (_poll_run_with_tools h i script).1 = PollResult.returned run →
          run.status ∈ TerminalStatuses) ∧
    (∀ (h : ToolCallHandler) (i : ℚ) (snap : RunSnapshot) (rest : List RunSnapshot),
        snap.status ∉ TerminalStatuses → snap.status ≠ "requires_action" →
          _poll_run_with_tools h i (snap :: rest) =
            ((_poll_run_with_tools h i rest).1,
              PollEvent.fetch snap :: PollEvent.sleep i ::
                (_poll_run_with_tools h i rest).2)) :=
  ⟨fun h i script run => poll_fst_returned_terminal h i script run,
   fun h i snap rest h1 h2 => poll_unknown_status_sleeps h i snap rest h1 h2⟩

/-- Witness for C3 at a concrete unknown status and a concrete returned
terminal snapshot. -/
theorem poll_loop_terminal_return_and_unknown_wait_witness :
    demoDone.status ∈ TerminalStatuses ∧
    _poll_run_with_tools demoHandler 1 [demoUnknown] =
      ((_poll_run_with_tools demoHandler 1 []).1,
        PollEvent.fetch demoUnknown :: PollEvent.sleep 1 ::
          (_poll_run_with_tools demoHandler 1 []).2) :=
  ⟨poll_loop_terminal_return_and_unknown_wait.1 demoHandler 1 [demoDone] demoDone
      (by simp [_poll_run_with_tools, TerminalStatuses, demoDone]),
   poll_loop_terminal_return_and_unknown_wait.2 demoHandler 1 demoUnknown []
      (by simp [TerminalStatuses, demoUnknown]) (by simp [demoUnknown])⟩

/-- Declarative agent definition (utils/agent_runtime.py lines 16-23).
Tool descriptors are opaque to the orchestration logic and are modelled
as strings; the None default for tools becomes Option.none. The model
deployment name comes from the environment and is opaque here. -/
structure AgentConfig where
  name : String
  instructions : String
  tools : Option (List String) := none
  model_deployment : String
deriving Repr, DecidableEq

/-- The DTO assembled from a finished run
(utils/agent_runtime.py lines 26-35). Messages are opaque strings. -/
structure AgentRunResult where
  agent_id : String
  agent_name : String
  thread_id : String
  run_id : String
  run_status : String
  messages : List String
deriving Repr, DecidableEq

/-- The scripted behaviour of the external project client: the handles
it returns for each provisioning call, the run returned by
create_and_process, the successive snapshots served by runs.get, and
the final message list. -/
structure ProjectClient where
  agent_id : String
  agent_name : String
  thread_id : String
  created_run_id : String
  processed_run : RunSnapshot
  script : List RunSnapshot
  messages : List String
deriving Repr, DecidableEq

/-- One call issued against the external project client, in order. -/
inductive ClientCall where
  | create_agent (model name instructions : String) (tools : List String)
  | threads_create
  | messages_create (thread_id role content : String)
  | runs_create (thread_id agent_id : String) (additional_instructions : Option String)
  | runs_create_and_process (thread_id agent_id : String)
      (additional_instructions : Option String)
  | poll (ev : PollEvent)
  | messages_list (thread_id : String)
  | post_run_hook (result : AgentRunResult)
  | delete_agent (agent_id : String)
deriving Repr, DecidableEq

/-- How an orchestrated interaction ends. incomplete is a modelling
artifact for an exhausted snapshot script. -/
inductive InteractionOutcome where
  | ok (result : AgentRunResult)
  | valueError (msg : String)
  | runtimeError (msg : String)
  | incomplete
deriving Repr, DecidableEq

/-- The tail of run_agent_interaction after the run has finished
(utils/agent_runtime.py lines 112-127): list the messages, assemble the
result, invoke the optional post-run hook, optionally delete the agent. -/
def _finish_interaction (run : RunSnapshot) (client : ProjectClient)
    (has_post_run_hook auto_delete_agent : Bool) (trace : List ClientCall) :
    InteractionOutcome × List ClientCall :=
  let trace1 := trace ++ [ClientCall.messages_list client.thread_id]
  let result : AgentRunResult :=
    { agent_id := client.agent_id, agent_name := client.agent_name,
      thread_id := client.thread_id, run_id := run.id,
      run_status := run.status, messages := client.messages }
  let trace2 := if has_post_run_hook then trace1 ++ [ClientCall.post_run_hook result] else trace1
  let trace3 :=
    if auto_delete_agent then trace2 ++ [ClientCall.delete_agent client.agent_id] else trace2
  (.ok result, trace3)

/-- Embedding of run_agent_interaction (utils/agent_runtime.py lines
42-129). An empty user input raises ValueError before the client context
is even opened, so the call trace is empty in that case. With a handler
the run is created and then driven by _poll_run_with_tools; without one
the auto-processing create_and_process path is used. A RuntimeError
raised inside the poll loop propagates, skipping the remaining calls. -/
def run_agent_interaction (config : AgentConfig) (user_input : String)
    (additional_instructions : Option String)
    (handle_tool_calls : Option ToolCallHandler)
    (poll_interval_seconds : ℚ)
    (has_post_run_hook auto_delete_agent : Bool)
    (client : ProjectClient) : InteractionOutcome × List ClientCall :=
  if user_input = "" then
    (.valueError "user_input must not be empty", [])
  else
    let pre : List ClientCall :=
      [ClientCall.create_agent config.model_deployment config.name config.instructions
         (config.tools.getD []),
       ClientCall.threads_create,
       ClientCall.messages_create client.thread_id "user" user_input]
    match handle_tool_calls with
    | some handler =>
      let polled := _poll_run_with_tools handler poll_interval_seconds client.script
      let trace := pre ++
        ClientCall.runs_create client.thread_id client.agent_id additional_instructions ::
          polled.2.map ClientCall.poll
      match polled.1 with
      | .returned run =>
          _finish_interaction run client has_post_run_hook auto_delete_agent trace
      | .raised msg => (.runtimeError msg, trace)
      | .scriptExhausted => (.incomplete, trace)
    | none =>
      _finish_interaction client.processed_run client has_post_run_hook auto_delete_agent
        (pre ++ [ClientCall.runs_create_and_process client.thread_id client.agent_id
                   additional_instructions])

/-- C4: an empty user input fails with the ValueError message before any
provisioning call on the external client: the outcome is the invalid
input condition and the call trace is empty (no agent, thread, message
or run is created). -/
theorem run_agent_interaction_empty_input (config : AgentConfig)
    (additional_instructions : Option String)
    (handle_tool_calls : Option ToolCallHandler) (poll_interval_seconds : ℚ)
    (has_post_run_hook auto_delete_agent : Bool) (client : ProjectClient) :
    run_agent_interaction config "" additional_instructions handle_tool_calls
        poll_interval_seconds has_post_run_hook auto_delete_agent client =
      (InteractionOutcome.valueError "user_input must not be empty", []) := rfl

/-- Whether a client call belongs to the tool-dispatch poll loop. -/
def ClientCall.is_poll_event : ClientCall → Bool
  | .poll _ => true
  | _ => false

/-- Whether a client call creates an interactive run (the path reserved
for the tool-dispatch loop). -/
def ClientCall.is_runs_create : ClientCall → Bool
  | .runs_create _ _ _ => true
  | _ => false

/-- C5: for every non-empty user input, calling the orchestrator without
a tool-call handler takes the auto-processing path: the outcome is the
result assembled from the create_and_process run, the call trace is
exactly provisioning followed by runs_create_and_process and the message
listing (plus the optional hook and delete), and no poll-loop event and
no interactive run creation ever occurs. -/
theorem run_agent_interaction_no_handler_auto (config : AgentConfig)
    (user_input : String) (hne : user_input ≠ "")
    (additional_instructions : Option String) (poll_interval_seconds : ℚ)
    (has_post_run_hook auto_delete_agent : Bool) (client : ProjectClient) :
    run_agent_interaction config user_input additional_instructions none
        poll_interval_seconds has_post_run_hook auto_delete_agent client =
      (InteractionOutcome.ok
        { agent_id := client.agent_id, agent_name := client.agent_name,
          thread_id := client.thread_id, run_id := client.processed_run.id,
          run_status := client.processed_run.status, messages := client.messages },
       ([ClientCall.create_agent config.model_deployment config.name config.instructions
           (config.tools.getD []),
         ClientCall.threads_create,
         ClientCall.messages_create client.thread_id "user" user_input,
         ClientCall.runs_create_and_process client.thread_id client.agent_id
           additional_instructions,
         ClientCall.messages_list client.thread_id] ++
        (if has_post_run_hook then
          [ClientCall.post_run_hook
            { agent_id := client.agent_id, agent_name := client.agent_name,
              thread_id := client.thread_id, run_id := client.processed_run.id,
              run_status := client.processed_run.status, messages := client.messages }]
         else []) ++
        (if auto_delete_agent then [ClientCall.delete_agent client.agent_id] else []))) ∧
    ∀ ev ∈ (run_agent_interaction config user_input additional_instructions none
        poll_interval_seconds has_post_run_hook auto_delete_agent client).2,
      ev.is_poll_event = false ∧ ev.is_runs_create = false := by
  have hmain : run_agent_interaction config user_input additional_instructions none
      poll_interval_seconds has_post_run_hook auto_delete_agent client =
      (InteractionOutcome.ok
        { agent_id := client.agent_id, agent_name := client.agent_name,
          thread_id := client.thread_id, run_id := client.processed_run.id,
          run_status := client.processed_run.status, messages := client.messages },
       ([ClientCall.create_agent config.model_deployment config.name config.instructions
           (config.tools.getD []),
         ClientCall.threads_create,
         ClientCall.messages_create client.thread_id "user" user_input,
         ClientCall.runs_create_and_process client.thread_id client.agent_id
           additional_instructions,
         ClientCall.messages_list client.thread_id] ++
        (if has_post_run_hook then
          [ClientCall.post_run_hook
            { agent_id := client.agent_id, agent_name := client.agent_name,
              thread_id := client.thread_id, run_id := client.processed_run.id,
              run_status := client.processed_run.status, messages := client.messages }]
         else []) ++
        (if auto_delete_agent then [ClientCall.delete_agent client.agent_id] else []))) := by
    rw [run_agent_interaction, if_neg hne]
    simp only [_finish_interaction]
    cases has_post_run_hook <;> cases auto_delete_agent <;> simp
  refine ⟨hmain, ?_⟩
  intro ev hev
  rw [hmain] at hev
  simp only [List.mem_append] at hev
  rcases hev with (hev | hev) | hev
  · simp only [List.mem_cons, List.not_mem_nil, or_false] at hev
    rcases hev with rfl | rfl | rfl | rfl | rfl <;> exact ⟨rfl, rfl⟩
  · cases has_post_run_hook
    · simp at hev
    · simp at hev
      subst hev
      exact ⟨rfl, rfl⟩
  · cases auto_delete_agent
    · simp at hev
    · simp at hev
      subst hev
      exact ⟨rfl, rfl⟩

/-- Demo config and client used by closed witness statements. -/
def demoConfig : AgentConfig :=
  { name := "weather-assistant", instructions := "Be helpful.",
    tools := none, model_deployment := "gpt-4o" }

def demoClient : ProjectClient :=
  { agent_id := "agent-123", agent_name := "weather-assistant",
    thread_id := "thread-456", created_run_id := "run-789",
    processed_run := demoDone, script := [], messages := ["All done"] }

/-- Witness for C5 at a concrete non-empty input. -/
theorem run_agent_interaction_no_handler_auto_witness :
    run_agent_interaction demoConfig "Hello" none none 1 false false demoClient =
      (InteractionOutcome.ok
        { agent_id := "agent-123", agent_name := "weather-assistant",
          thread_id := "thread-456", run_id := demoDone.id,
          run_status := demoDone.status, messages := ["All done"] },
       [ClientCall.create_agent "gpt-4o" "weather-assistant" "Be helpful." [],
        ClientCall.threads_create,
        ClientCall.messages_create "thread-456" "user" "Hello",
        ClientCall.runs_create_and_process "thread-456" "agent-123" none,
        ClientCall.messages_list "thread-456"]) ∧
    ∀ ev ∈ (run_agent_interaction demoConfig "Hello" none none 1 false false demoClient).2,
      ev.is_poll_event = false ∧ ev.is_runs_create = false := by
  have h := run_agent_interaction_no_handler_auto demoConfig "Hello"
    (by decide) none 1 false false demoClient
  exact ⟨by rw [h.1]; rfl, h.2⟩

/-- Python string truthiness for an optional string: None and the empty
string are falsy, everything else is truthy. -/
def pyTruthy : Option String → Bool
  | none => false
  | some s => !(s == "")

/-- Python str.join with a separator: the separator is interleaved
between the elements of the list. -/
def join_with (sep : String) : List String → String
  | [] => ""
  | [x] => x
  | x :: xs => x ++ sep ++ join_with sep xs

/-- Embedding of _extract_condition (agents/weather_agent.py lines
37-40): a missing or empty description list, or a join that comes out
empty after dropping empty entries, yields the fallback string. -/
def _extract_condition (descriptions : Option (List String)) : String :=
  match descriptions with
  | none => "Unknown conditions"
  | some ds =>
    if ds = [] then "Unknown conditions"
    else
      let joined := join_with ", " (ds.filter fun d => !(d == ""))
      if joined = "" then "Unknown conditions" else joined

/-- Embedding of Python str.title for the ASCII range: a cased letter
that follows a non-letter is uppercased, a letter that follows a letter
is lowercased. -/
def pythonTitle (s : String) : String :=
  String.mk
    (s.toList.foldl
      (fun (acc : List Char × Bool) c =>
        (acc.1 ++ [if acc.2 then c.toLower else c.toUpper], c.isAlpha))
      ([], false)).1

/-- Rendering of a temperature to one decimal place. The embedding
restricts temperatures to integral values (as delivered by the provider
payloads in scope), for which Python float(t) followed by the .1f format
prints the integer followed by a ".0" suffix, exactly. -/
def format_one_decimal (t : Int) : String := toString t ++ ".0"

/-- The WeatherReport dataclass (agents/weather_agent.py lines 18-31).
The temperature is modelled as an integer, see format_one_decimal. -/
structure WeatherReport where
  location : String
  temperature_c : Int
  condition : String
  humidity_pct : Int
deriving Repr, DecidableEq

/-- WeatherReport.serialize (agents/weather_agent.py lines 25-31): the
human-readable summary used as tool output. A falsy date (None or the
empty string) omits the date clause. -/
def WeatherReport.serialize (r : WeatherReport) (date : Option String) : String :=
  let date_clause := if pyTruthy date then " on " ++ date.getD "" else ""
  "Weather for " ++ r.location ++ date_clause ++ ": " ++
    format_one_decimal r.temperature_c ++ "°C" ++ ", " ++ r.condition ++
    ", humidity " ++ toString r.humidity_pct ++ "%"

/-- The error object of a Weatherstack payload; the code and info
strings are optional, with defaults applied at the use site. -/
structure WeatherstackError where
  code : Option String := none
  info : Option String := none
deriving Repr, DecidableEq

/-- The location object of a Weatherstack payload. -/
structure LocationData where
  name : Option String := none
  localtime : Option String := none
  country : Option String := none
deriving Repr, DecidableEq

/-- The current-conditions object of a Weatherstack payload. -/
structure CurrentData where
  weather_descriptions : Option (List String) := none
  temperature : Option Int := none
  humidity : Option Int := none
deriving Repr, DecidableEq

/-- A decoded Weatherstack JSON payload. A field set to none models an
absent or falsy (empty) member, matching the truthiness tests the
source applies. -/
structure WeatherPayload where
  error : Option WeatherstackError := none
  location : Option LocationData := none
  current : Option CurrentData := none
deriving Repr, DecidableEq

/-- The outcome of the HTTP request to the provider: a transport-level
failure (RequestException), a body that fails JSON decoding, or a
decoded payload. -/
inductive ProviderResult where
  | requestFailed (exc : String)
  | unreadableBody
  | ok (payload : WeatherPayload)
deriving Repr, DecidableEq

/-- The resolved display name: location_data.get("name") or
location.title() with Python or-falsiness. -/
def resolve_location_name (location_data : LocationData) (location : String) : String :=
  if pyTruthy location_data.name then location_data.name.getD ""
  else pythonTitle location

/-- Embedding of get_weatherstack_weather (agents/weather_agent.py lines
43-108). The HTTP interaction is abstracted into the provider argument;
every failure mode is absorbed into a descriptive result string, never
an exception. -/
def get_weatherstack_weather (location : String) (date : Option String)
    (provider : ProviderResult) : String :=
  if location = "" then "Missing location."
  else
    let fallback_note :=
      if pyTruthy date then
        "Historical dates are not supported on this plan; returning the latest conditions instead."
      else ""
    match provider with
    | .requestFailed exc => "Weather service request failed: " ++ exc
    | .unreadableBody => "Weather service returned an unreadable response."
    | .ok payload =>
      match payload.error with
      | some error =>
        "Weather service error (" ++ error.code.getD "unknown" ++ "): " ++
          error.info.getD "Unknown error from Weatherstack."
      | none =>
        let location_data := payload.location.getD {}
        match payload.current with
        | none => "Weather service returned no current conditions for that query."
        | some current =>
          let condition := _extract_condition current.weather_descriptions
          match current.temperature, current.humidity with
          | some temperature, some humidity =>
            let report : WeatherReport :=
              { location := resolve_location_name location_data location,
                temperature_c := temperature,
                condition := condition,
                humidity_pct := humidity }
            let reported_date := if pyTruthy date then date else location_data.localtime
            let summary := report.serialize reported_date
            let extra_bits :=
              (if fallback_note ≠ "" then [fallback_note] else []) ++
              ["Data source: Weatherstack live API."] ++
              (if pyTruthy location_data.country then
                ["Country: " ++ location_data.country.getD ""]
              else [])
            summary ++ ". " ++ join_with " " extra_bits
          | _, _ => "Weather service response was missing temperature or humidity data."

/-- The decoded argument object of a weather tool call. -/
structure ToolArgs where
  location : Option String := none
  date : Option String := none
deriving Repr, DecidableEq

/-- Abstract JSON decoding of a raw argument string: none models a
JSONDecodeError. Decoding success on a non-object value is out of
scope of the embedded code paths. -/
abbrev JsonParse := String → Option ToolArgs

/-- The provider response as a function of the (location, date) query
the tool function issues. -/
abbrev WeatherProvider := String → Option String → ProviderResult

/-- Embedding of the weather _handle_tool_calls dispatcher
(agents/weather_agent.py lines 164-190). The unused project-client
handle parameter is dropped. The source parses
getattr(func, "arguments", "") or the literal empty-object text when
that attribute is empty; since decoding the empty-object text always
succeeds with no members, that case is modelled as the default
ToolArgs directly. A decode failure falls back to the same default. -/
def _handle_tool_calls (parse : JsonParse) (provider : WeatherProvider) :
    List ToolCall → List ToolOutput
  | [] => []
  | call :: rest =>
    let tail := _handle_tool_calls parse provider rest
    if call.type ≠ "function" then tail
    else
      match call.function with
      | none => tail
      | some func =>
        if func.name ≠ "get_weatherstack_weather" then tail
        else
          let arguments :=
            if func.arguments = "" then ({} : ToolArgs)
            else (parse func.arguments).getD {}
          let location := arguments.location.getD ""
          let date := arguments.date
          { tool_call_id := call.id,
            output := get_weatherstack_weather location date (provider location date) } :: tail

/-- A call is dispatched exactly when its type is "function" and its
function payload names the one locally implemented tool. -/
def is_dispatchable (call : ToolCall) : Bool :=
  call.type == "function" &&
    (match call.function with
     | some func => func.name == "get_weatherstack_weather"
     | none => false)

/-- The single output built for a dispatched call. -/
def dispatch_output (parse : JsonParse) (provider : WeatherProvider)
    (call : ToolCall) : ToolOutput :=
  let arguments :=
    match call.function with
    | some func =>
      if func.arguments = "" then ({} : ToolArgs)
      else (parse func.arguments).getD {}
    | none => {}
  let location := arguments.location.getD ""
  let date := arguments.date
  { tool_call_id := call.id,
    output := get_weatherstack_weather location date (provider location date) }

/-- Helper: the dispatcher is exactly the dispatchable calls mapped to
their outputs, in order. -/
theorem handle_tool_calls_eq_filter_map (parse : JsonParse) (provider : WeatherProvider) :
    ∀ tool_calls : List ToolCall,
      _handle_tool_calls parse provider tool_calls =
        (tool_calls.filter is_dispatchable).map (dispatch_output parse provider) := by
  intro tool_calls
  induction tool_calls with
  | nil => rfl
  | cons call rest ih =>
    rw [_handle_tool_calls]
    by_cases htype : call.type = "function"
    · cases hfunc : call.function with
      | none =>
        simp [htype, hfunc, is_dispatchable, ih, List.filter_cons]
      | some func =>
        by_cases hname : func.name = "get_weatherstack_weather"
        · simp [htype, hfunc, hname, is_dispatchable, dispatch_output, ih, List.filter_cons]
        · simp [htype, hfunc, hname, is_dispatchable, ih, List.filter_cons]
    · simp [htype, is_dispatchable, ih, List.filter_cons]

/-- C6: every produced output carries the id of a tool call from the
same input list, and outputs are produced exactly for the calls whose
type is "function" and whose function name is the known weather tool;
every other call is skipped and contributes nothing, and the dispatcher
is total (it never raises). -/
theorem handle_tool_calls_dispatch_invariant (parse : JsonParse)
    (provider : WeatherProvider) (tool_calls : List ToolCall) :
    _handle_tool_calls parse provider tool_calls =
      (tool_calls.filter is_dispatchable).map (dispatch_output parse provider) ∧
    ∀ out ∈ _handle_tool_calls parse provider tool_calls,
      ∃ call ∈ tool_calls, out.tool_call_id = call.id := by
  refine ⟨handle_tool_calls_eq_filter_map parse provider tool_calls, ?_⟩
  intro out hout
  rw [handle_tool_calls_eq_filter_map] at hout
  rcases List.mem_map.mp hout with ⟨call, hcall, rfl⟩
  exact ⟨call, List.mem_of_mem_filter hcall, rfl⟩

/-- Demo parse and provider functions for closed witness statements. -/
def demoParse : JsonParse := fun _ => none

def demoProvider : WeatherProvider := fun _ _ => ProviderResult.unreadableBody

/-- A call with an unrecognized function name. -/
def demoBadCall : ToolCall :=
  { id := "call-2", type := "function",
    function := some { name := "other", arguments := "" } }

/-- Witness for C6 at a concrete call list. -/
theorem handle_tool_calls_dispatch_invariant_witness :
    ∃ call ∈ [demoCall, demoBadCall],
      (⟨"call-1", "Missing location."⟩ : ToolOutput).tool_call_id = call.id :=
  (handle_tool_calls_dispatch_invariant demoParse demoProvider [demoCall, demoBadCall]).2
    ⟨"call-1", "Missing location."⟩ (by decide)

/-- The needle occurs as a contiguous substring of the haystack. -/
def contains_substring (hay needle : String) : Prop :=
  ∃ pre post : String, hay = pre ++ needle ++ post

/-- Helper: appending on the right preserves substring containment. -/
theorem contains_substring_append_right (a b needle : String)
    (h : contains_substring a needle) : contains_substring (a ++ b) needle := by
  obtain ⟨pre, post, rfl⟩ := h
  exact ⟨pre, post ++ b, by simp [String.append_assoc]⟩

/-- Helper: an append whose left part is nonempty is nonempty. -/
theorem append_ne_empty_left (a b : String) (ha : a ≠ "") : a ++ b ≠ "" := by
  intro hcon
  apply ha
  apply String.ext
  have hdata := congrArg String.data hcon
  rw [String.data_append] at hdata
  exact (List.append_eq_nil.mp hdata).1

/-- Helper: joining a nonempty list of nonempty strings is nonempty. -/
theorem join_with_ne_empty (sep : String) :
    ∀ ds : List String, ds ≠ [] → (∀ d ∈ ds, d ≠ "") → join_with sep ds ≠ "" := by
  intro ds
  induction ds with
  | nil => intro h _; exact absurd rfl h
  | cons d rest ih =>
    intro _ hall
    cases rest with
    | nil =>
      show d ≠ ""
      exact hall d (by simp)
    | cons e tail =>
      show d ++ sep ++ join_with sep (e :: tail) ≠ ""
      exact append_ne_empty_left _ _ (append_ne_empty_left _ _ (hall d (by simp)))

/-- Helper: on a nonempty list of nonempty descriptions the condition is
their comma join. -/
theorem extract_condition_joined (ds : List String) (hne : ds ≠ [])
    (hall : ∀ d ∈ ds, d ≠ "") :
    _extract_condition (some ds) = join_with ", " ds := by
  have hfilter : ds.filter (fun d => !(d == "")) = ds := by
    rw [List.filter_eq_self]
    intro a ha
    simpa using hall a ha
  rw [_extract_condition]
  simp only [hfilter]
  rw [if_neg hne, if_neg (join_with_ne_empty ", " ds hne hall)]

/-- Helper: the serialized report contains the location, the formatted
temperature with its unit, the condition string, and the humidity with
its percent sign. -/
theorem serialize_contains_parts (r : WeatherReport) (date : Option String) :
    contains_substring (r.serialize date) r.location ∧
    contains_substring (r.serialize date) (format_one_decimal r.temperature_c ++ "°C") ∧
    contains_substring (r.serialize date) r.condition ∧
    contains_substring (r.serialize date) (toString r.humidity_pct ++ "%") := by
  refine
    ⟨⟨"Weather for ",
      (if pyTruthy date then " on " ++ date.getD "" else "") ++ ": " ++
        format_one_decimal r.temperature_c ++ "°C" ++ ", " ++ r.condition ++
        ", humidity " ++ toString r.humidity_pct ++ "%", ?_⟩,
     ⟨"Weather for " ++ r.location ++
        (if pyTruthy date then " on " ++ date.getD "" else "") ++ ": ",
      ", " ++ r.condition ++ ", humidity " ++ toString r.humidity_pct ++ "%", ?_⟩,
     ⟨"Weather for " ++ r.location ++
        (if pyTruthy date then " on " ++ date.getD "" else "") ++ ": " ++
        format_one_decimal r.temperature_c ++ "°C" ++ ", ",
      ", humidity " ++ toString r.humidity_pct ++ "%", ?_⟩,
     ⟨"Weather for " ++ r.location ++
        (if pyTruthy date then " on " ++ date.getD "" else "") ++ ": " ++
        format_one_decimal r.temperature_c ++ "°C" ++ ", " ++ r.condition ++
        ", humidity ", "", ?_⟩⟩ <;>
    simp only [WeatherReport.serialize, String.append_assoc, String.append_empty]

/-- C7: for a well-formed payload (no error object, current conditions
present with temperature, humidity and a nonempty list of nonempty
descriptions) the summary string contains the resolved location name,
the temperature formatted to one decimal place with its unit, the
comma-joined condition descriptions, and the humidity percentage; and
for every payload missing temperature or humidity the function returns
the specific missing-data string instead of raising. -/
theorem get_weather_roundtrip (location : String) (date : Option String)
    (payload : WeatherPayload) (current : CurrentData) (t hum : Int) (ds : List String)
    (hloc : location ≠ "") (herr : payload.error = none)
    (hcur : payload.current = some current)
    (ht : current.temperature = some t) (hh : current.humidity = some hum)
    (hds : current.weather_descriptions = some ds) (hdne : ds ≠ [])
    (hall : ∀ d ∈ ds, d ≠ "") :
    (contains_substring (get_weatherstack_weather location date (.ok payload))
        (resolve_location_name (payload.location.getD {}) location) ∧
     contains_substring (get_weatherstack_weather location date (.ok payload))
        (format_one_decimal t ++ "°C") ∧
     contains_substring (get_weatherstack_weather location date (.ok payload))
        (join_with ", " ds) ∧
     contains_substring (get_weatherstack_weather location date (.ok payload))
        (toString hum ++ "%")) ∧
    (∀ (l : String) (d : Option String) (p : WeatherPayload) (c : CurrentData),
        l ≠ "" → p.error = none → p.current = some c →
        (c.temperature = none ∨ c.humidity = none) →
        get_weatherstack_weather l d (.ok p) =
          "Weather service response was missing temperature or humidity data.") := by
  constructor
  · have hcond : _extract_condition current.weather_descriptions = join_with ", " ds := by
      rw [hds]
      exact extract_condition_joined ds hdne hall
    rw [get_weatherstack_weather, if_neg hloc]
    simp only [herr, hcur, ht, hh, hcond]
    refine ⟨?_, ?_, ?_, ?_⟩ <;>
      · apply contains_substring_append_right
        apply contains_substring_append_right
        first
        | exact (serialize_contains_parts _ _).1
        | exact (serialize_contains_parts _ _).2.1
        | exact (serialize_contains_parts _ _).2.2.1
        | exact (serialize_contains_parts _ _).2.2.2
  · intro l d p c hl hperr hpcur hmiss
    rw [get_weatherstack_weather, if_neg hl]
    rcases hmiss with hmt | hmh
    · simp only [hperr, hpcur, hmt]
    · cases htv : c.temperature with
      | none => simp only [hperr, hpcur, htv]
      | some tv => simp only [hperr, hpcur, htv, hmh]

/-- The current-conditions object of the end-to-end Seattle scenario. -/
def seattleCurrent : CurrentData :=
  { weather_descriptions := some ["Light rain", "Windy"],
    temperature := some 12, humidity := some 75 }

/-- The provider payload of the end-to-end Seattle scenario. -/
def seattlePayload : WeatherPayload :=
  { error := none,
    location := some { name := some "Seattle", localtime := some "2025-05-01",
                       country := some "United States of America" },
    current := some seattleCurrent }

/-- Witness for C7: the Seattle scenario yields a summary containing
"Seattle", "12.0°C", "Light rain, Windy" and "75%". -/
theorem get_weather_roundtrip_witness :
    contains_substring
      (get_weatherstack_weather "Seattle" none (ProviderResult.ok seattlePayload)) "Seattle" ∧
    contains_substring
      (get_weatherstack_weather "Seattle" none (ProviderResult.ok seattlePayload)) "12.0°C" ∧
    contains_substring
      (get_weatherstack_weather "Seattle" none (ProviderResult.ok seattlePayload))
      "Light rain, Windy" ∧
    contains_substring
      (get_weatherstack_weather "Seattle" none (ProviderResult.ok seattlePayload)) "75%" := by
  have h := (get_weather_roundtrip "Seattle" none seattlePayload seattleCurrent 12 75
      ["Light rain", "Windy"] (by decide) rfl rfl rfl rfl rfl (by decide) (by decide)).1
  have e1 : resolve_location_name (seattlePayload.location.getD {}) "Seattle" = "Seattle" := by
    decide
  have e2 : format_one_decimal 12 ++ "°C" = "12.0°C" := by decide
  have e3 : join_with ", " ["Light rain", "Windy"] = "Light rain, Windy" := by decide
  have e4 : toString (75 : Int) ++ "%" = "75%" := by decide
  exact ⟨e1 ▸ h.1, e2 ▸ h.2.1, e3 ▸ h.2.2.1, e4 ▸ h.2.2.2⟩

/-- C8: a dispatched call whose raw argument string fails JSON decoding
does not raise: the empty argument set is substituted, the tool function
is invoked with an empty location, and it reports the missing required
field through its return string. -/
theorem malformed_arguments_fail_soft (parse : JsonParse) (provider : WeatherProvider)
    (call : ToolCall) (func : ToolFunction)
    (htype : call.type = "function") (hfunc : call.function = some func)
    (hname : func.name = "get_weatherstack_weather")
    (hraw : func.arguments ≠ "") (hparse : parse func.arguments = none) :
    _handle_tool_calls parse provider [call] =
      [{ tool_call_id := call.id,
         output := get_weatherstack_weather "" none (provider "" none) }] ∧
    get_weatherstack_weather "" none (provider "" none) = "Missing location." := by
  constructor
  · rw [_handle_tool_calls]
    simp [_handle_tool_calls, htype, hfunc, hname, hparse, hraw]
  · rfl

/-- A call carrying an argument string that is not valid JSON. -/
def demoMalformedCall : ToolCall :=
  { id := "call-3", type := "function",
    function := some { name := "get_weatherstack_weather", arguments := "not json" } }

/-- Witness for C8 at a concrete malformed call. -/
theorem malformed_arguments_fail_soft_witness :
    _handle_tool_calls demoParse demoProvider [demoMalformedCall] =
      [{ tool_call_id := "call-3",
         output := get_weatherstack_weather "" none (demoProvider "" none) }] ∧
    get_weatherstack_weather "" none (demoProvider "" none) = "Missing location." :=
  malformed_arguments_fail_soft demoParse demoProvider demoMalformedCall
    { name := "get_weatherstack_weather", arguments := "not json" }
    rfl rfl rfl (by decide) rfl

/-- The parsed CLI arguments (main.py lines 14-42): the agent choice,
the optional prompt and instruction flags, the auto-delete flag. -/
structure CliArgs where
  agent : String
  prompt : Option String := none
  additional_instructions : Option String := none
  auto_delete_agent : Bool := false
deriving Repr, DecidableEq

/-- _prompt_for_input (main.py lines 65-70): the interactive line, or
the empty string when the read is interrupted (modelled by none). -/
def _prompt_for_input (stdin : Option String) : String := stdin.getD ""

/-- Python or-chaining on an optional string with a fallback: a falsy
(missing or empty) first operand selects the fallback. -/
def py_or_str (value : Option String) (fallback : String) : String :=
  match value with
  | some s => if s = "" then fallback else s
  | none => fallback

/-- Embedding of main (main.py lines 45-62). The registry lookup cannot
fail because argparse restricts the agent choice to registry keys, so
the selected runner is passed directly. The runner receives the stripped
prompt, the optional run-scoped instructions and the auto-delete flag;
main returns exit code 1 without running anything when the stripped
prompt is empty, and 0 with the run result otherwise. Python str.strip
is modelled by String.trim (they agree on ASCII whitespace). -/
def cli_main (args : CliArgs) (stdin : Option String)
    (runner : String → Option String → Bool → AgentRunResult) :
    Nat × Option AgentRunResult :=
  let prompt := (py_or_str args.prompt (_prompt_for_input stdin)).trim
  if prompt = "" then (1, none)
  else (0, some (runner prompt args.additional_instructions args.auto_delete_agent))

/-- C9: main exits with code 1 exactly when the effective prompt (the
prompt flag, falling back to the interactive line) strips to the empty
string, and with code 0 exactly otherwise; in the latter case the
selected runner is invoked on the stripped prompt. -/
theorem main_exit_codes (args : CliArgs) (stdin : Option String)
    (runner : String → Option String → Bool → AgentRunResult) :
    ((cli_main args stdin runner).1 = 1 ↔
      (py_or_str args.prompt (_prompt_for_input stdin)).trim = "") ∧
    ((cli_main args stdin runner).1 = 0 ↔
      (py_or_str args.prompt (_prompt_for_input stdin)).trim ≠ "") ∧
    ((py_or_str args.prompt (_prompt_for_input stdin)).trim ≠ "" →
      cli_main args stdin runner =
        (0, some (runner ((py_or_str args.prompt (_prompt_for_input stdin)).trim)
            args.additional_instructions args.auto_delete_agent))) := by
  by_cases hp : (py_or_str args.prompt (_prompt_for_input stdin)).trim = ""
  · refine ⟨?_, ?_, ?_⟩
    · simp [cli_main, hp]
    · simp [cli_main, hp]
    · intro hcon
      exact absurd hp hcon
  · refine ⟨?_, ?_, ?_⟩
    · simp [cli_main, hp]
    · simp [cli_main, hp]
    · intro _
      simp [cli_main, hp]

/-- Demo runner for closed witness statements. -/
def demoRunner : String → Option String → Bool → AgentRunResult :=
  fun prompt _ _ =>
    { agent_id := "agent-123", agent_name := "math", thread_id := "thread-456",
      run_id := "run-789", run_status := "completed", messages := [prompt] }

/-- Witness for C9: a supplied prompt exits 0, an absent prompt with no
interactive input exits 1. -/
theorem main_exit_codes_witness :
    ((cli_main { agent := "math", prompt := some "Add 2 and 2" } none demoRunner).1 = 0 ↔
      (py_or_str (some "Add 2 and 2") (_prompt_for_input none)).trim ≠ "") ∧
    ((cli_main { agent := "math" } none demoRunner).1 = 1 ↔
      (py_or_str none (_prompt_for_input none)).trim = "") :=
  ⟨(main_exit_codes { agent := "math", prompt := some "Add 2 and 2" } none demoRunner).2.1,
   (main_exit_codes { agent := "math" } none demoRunner).1⟩

/-- The per-iteration inline dispatch body of a standalone script: from
the pending tool calls to the outputs list. The weather script inlines
the same per-call logic as the agents dispatcher for
get_weatherstack_weather; the stock script does the analogue for
fetch_intraday_stock_price. -/
abbrev InlineDispatch := List ToolCall → List ToolOutput

/-- How an inline polling loop stands after consuming the scripted
client responses: finished with a terminal snapshot, aborted by the
RuntimeError for missing outputs, or still running (the loop has not
exited and would keep iterating). -/
inductive InlineOutcome where
  | finished (run : RunSnapshot)
  | raisedError (msg : String)
  | stillRunning (run : RunSnapshot)
deriving Repr, DecidableEq

/-- The loop guard set of the standalone scripts
(weather_agent.py line 171, stock_market_agent.py line 153). -/
def InlineTerminalStatuses : List String := ["completed", "failed", "cancelled"]

/-- Embedding of the inline polling loops of the standalone scripts
(weather_agent.py main, lines 171-217, and stock_market_agent.py main,
lines 153-195; the two loops are textually parallel and differ only in
the inline dispatch body, abstracted here as the dispatch argument).
The loop keeps iterating while the current run status is outside
InlineTerminalStatuses: a requires_action status dispatches inline and
submits (the submit response becomes the new run, consumed from the
script), every other status sleeps one second and refetches (the fetch
response becomes the new run, also consumed from the script). When the
script runs out the loop is still running. -/
def inline_main_poll_loop (dispatch : InlineDispatch) :
    RunSnapshot → List RunSnapshot → InlineOutcome × List PollEvent
  | run, script =>
    if run.status ∈ InlineTerminalStatuses then
      (.finished run, [])
    else if run.status = "requires_action" then
      let outputs := dispatch run.tool_calls
      if outputs = [] then
        (.raisedError "Run requires tool output but no outputs were generated.",
         [.handlerInvoke run.tool_calls])
      else
        match script with
        | [] => (.stillRunning run, [.handlerInvoke run.tool_calls, .submit outputs])
        | next :: restScript =>
          let tail := inline_main_poll_loop dispatch next restScript
          (tail.1, .handlerInvoke run.tool_calls :: .submit outputs :: tail.2)
    else
      match script with
      | [] => (.stillRunning run, [])
      | next :: restScript =>
        let tail := inline_main_poll_loop dispatch next restScript
        (tail.1, .sleep 1 :: .fetch next :: tail.2)

/-- C10: the standalone scripts guard their loops with the terminal set
lacking "expired": a run that stays expired never lets the loop exit:
for every finite scripted client the loop is still running, having only
slept and refetched once per scripted response. The core orchestrator
loop, by contrast, returns the snapshot at once on an expired status. -/
theorem inline_loop_expired_never_exits :
    (∀ (dispatch : InlineDispatch) (run : RunSnapshot) (script : List RunSnapshot),
        run.status = "expired" → (∀ s ∈ script, s.status = "expired") →
        (∃ r, (inline_main_poll_loop dispatch run script).1 = InlineOutcome.stillRunning r) ∧
        (inline_main_poll_loop dispatch run script).2 =
          script.foldr (fun s acc => PollEvent.sleep 1 :: PollEvent.fetch s :: acc) []) ∧
    (∀ (h : ToolCallHandler) (i : ℚ) (s : RunSnapshot) (rest : List RunSnapshot),
        s.status = "expired" →
        _poll_run_with_tools h i (s :: rest) =
          (PollResult.returned s, [PollEvent.fetch s])) := by
  constructor
  · intro dispatch run script
    induction script generalizing run with
    | nil =>
      intro hexp _
      rw [inline_main_poll_loop]
      rw [if_neg (by rw [hexp]; decide), if_neg (by rw [hexp]; decide)]
      exact ⟨⟨run, rfl⟩, rfl⟩
    | cons next rest ih =>
      intro hexp hall
      obtain ⟨⟨r, hr⟩, hev⟩ :=
        ih next (hall next (by simp)) (fun s hs => hall s (by simp [hs]))
      rw [inline_main_poll_loop]
      rw [if_neg (by rw [hexp]; decide), if_neg (by rw [hexp]; decide)]
      refine ⟨⟨r, hr⟩, ?_⟩
      simp only [List.foldr_cons, hev]
  · intro h i s rest hexp
    rw [_poll_run_with_tools]
    rw [if_pos (by rw [hexp]; decide)]

/-- An expired run snapshot for closed witness statements. -/
def demoExpired : RunSnapshot := { id := "run-1", status := "expired" }

/-- Witness for C10 at a one-snapshot script of expired statuses. -/
theorem inline_loop_expired_never_exits_witness :
    ((∃ r, (inline_main_poll_loop demoHandler demoExpired [demoExpired]).1 =
        InlineOutcome.stillRunning r) ∧
     (inline_main_poll_loop demoHandler demoExpired [demoExpired]).2 =
       [demoExpired].foldr (fun s acc => PollEvent.sleep 1 :: PollEvent.fetch s :: acc) []) ∧
    _poll_run_with_tools demoHandler 1 [demoExpired] =
      (PollResult.returned demoExpired, [PollEvent.fetch demoExpired]) :=
  ⟨inline_loop_expired_never_exits.1 demoHandler demoExpired [demoExpired] rfl
      (by intro s hs; simp at hs; rw [hs]; rfl),
   inline_loop_expired_never_exits.2 demoHandler 1 demoExpired [] rfl⟩
